import Mathlib

/-
Verification of the MOVE repository metadata generators
(modeloutputs_metadata.py and flythroughoutputs_metadata.py).

The Python code is shallowly embedded over List Char / String:
pure string manipulation is translated directly, the file system is an
association list from file names to contents, external collaborators
(kamodo model wrapper, pySPEDAS, urllib fetches, the clock) are passed
in as explicit arguments, and Python exceptions become an Except monad.
-/

/-! ## Generic string comparison (Python string order on code points) -/

/-- Three-way comparison of natural numbers. -/
def cmpN (n m : Nat) : Ordering :=
  if n < m then Ordering.lt else if n = m then Ordering.eq else Ordering.gt

/-- Three-way comparison of characters by code point, as Python compares
characters inside strings. -/
def cmpC (a b : Char) : Ordering := cmpN a.toNat b.toNat

/-- Lexicographic three-way comparison of character lists; this is the
order Python uses on strings. -/
def cmpL : List Char → List Char → Ordering
  | [], [] => Ordering.eq
  | [], _ :: _ => Ordering.lt
  | _ :: _, [] => Ordering.gt
  | a :: as, b :: bs => (cmpC a b).then (cmpL as bs)

/-- Python string less-or-equal on character lists. -/
def strLe (s t : List Char) : Prop := cmpL s t ≠ Ordering.gt

instance (s t : List Char) : Decidable (strLe s t) := by
  unfold strLe; infer_instance

/-! ## A model of Python datetime objects and their isoformat strings -/

/-- A Python datetime value, split into its named components. -/
structure PyDateTime where
  year : Nat
  month : Nat
  day : Nat
  hour : Nat
  minute : Nat
  second : Nat
  microsecond : Nat
deriving DecidableEq, Repr

/-- Range constraints the Python datetime constructor enforces on its
components (day is bounded by 31 rather than the per-month length, which
is enough for every property proved here). -/
def PyDateTime.valid (d : PyDateTime) : Prop :=
  1 ≤ d.year ∧ d.year ≤ 9999 ∧ 1 ≤ d.month ∧ d.month ≤ 12 ∧
  1 ≤ d.day ∧ d.day ≤ 31 ∧ d.hour ≤ 23 ∧ d.minute ≤ 59 ∧
  d.second ≤ 59 ∧ d.microsecond ≤ 999999

instance (d : PyDateTime) : Decidable d.valid := by
  unfold PyDateTime.valid; infer_instance

/-- Two fixed-width decimal digits, as the 02d format inside
datetime.isoformat renders month, day, hour, minute and second. -/
def pad2L (n : Nat) : List Char := [Nat.digitChar (n / 10), Nat.digitChar (n % 10)]

/-- Four fixed-width decimal digits, as the 04d format inside
datetime.isoformat renders the year. -/
def pad4L (n : Nat) : List Char := pad2L (n / 100) ++ pad2L (n % 100)

/-- Six fixed-width decimal digits, as the 06d format inside
datetime.isoformat renders the microsecond field. -/
def pad6L (n : Nat) : List Char :=
  pad2L (n / 10000) ++ pad2L (n / 100 % 100) ++ pad2L (n % 100)

/-- The first 19 characters of datetime.isoformat: the seconds-truncated
timestamp YYYY-MM-DDTHH:MM:SS. -/
def isoSecondsL (d : PyDateTime) : List Char :=
  pad4L d.year ++ '-' :: (pad2L d.month ++ '-' :: (pad2L d.day ++
    'T' :: (pad2L d.hour ++ ':' :: (pad2L d.minute ++ ':' :: pad2L d.second))))

/-- Python datetime.isoformat(): the seconds-truncated timestamp followed
by a dot and six microsecond digits when the microsecond field is
nonzero, and nothing else when it is zero. -/
def isoformatL (d : PyDateTime) : List Char :=
  isoSecondsL d ++ (if d.microsecond = 0 then [] else '.' :: pad6L d.microsecond)

/-- Python str(datetime): like isoformat but with a space separating the
date from the time. -/
def pyStrL (d : PyDateTime) : List Char :=
  pad4L d.year ++ '-' :: (pad2L d.month ++ '-' :: (pad2L d.day ++
    ' ' :: (pad2L d.hour ++ ':' :: (pad2L d.minute ++ ':' :: pad2L d.second)))) ++
  (if d.microsecond = 0 then [] else '.' :: pad6L d.microsecond)

/-- Seconds-resolution rank of a datetime: two datetimes compare in
temporal order at second granularity exactly as these numbers compare. -/
def truncRank (d : PyDateTime) : Nat :=
  (((((d.year * 100 + d.month) * 100 + d.day) * 100 + d.hour) * 100 +
    d.minute) * 100 + d.second)

/-- Microsecond-resolution rank of a datetime: full temporal order. -/
def dtRank (d : PyDateTime) : Nat := truncRank d * 1000000 + d.microsecond

/-! ## os.path.split and bucket_name

The function bucket_name appears with identical text in
modeloutputs_metadata.py and flythroughoutputs_metadata.py; it is
embedded once. Strings are modelled as List Char so that the index
slicing file_dir[5:-1] becomes drop 5 followed by dropLast. -/

/-- Head component of posixpath.split: everything up to and including the
last slash, with trailing slashes then stripped unless the head is empty
or consists only of slashes. -/
def ospath_head (p : List Char) : List Char :=
  if ((p.reverse.dropWhile (fun a => a != '/')).reverse).any (fun a => a != '/')
  then ((p.reverse.dropWhile (fun a => a != '/')).dropWhile (fun a => a == '/')).reverse
  else (p.reverse.dropWhile (fun a => a != '/')).reverse

/-- posixpath.split as used by the source through os.path.split: the pair
of the head component and the part after the last slash. -/
def ospath_split (p : List Char) : List Char × List Char :=
  (ospath_head p, (p.reverse.takeWhile (fun a => a != '/')).reverse)

/-- The while loop of bucket_name: as long as the head component still
contains a slash or a backslash, split it again. The loop is given fuel
because the Python loop does not terminate on degenerate all-slash
inputs; on every input treated here the fuel is ample. -/
def split_loop : Nat → List Char × List Char → List Char × List Char
  | 0, tmp => tmp
  | n + 1, tmp =>
    if '/' ∈ tmp.1 ∨ '\\' ∈ tmp.1 then split_loop n (ospath_split tmp.1) else tmp

/-- Embedding of bucket_name: cut off the five scheme characters and the
trailing slash, split repeatedly while the head has separators, and glue
the s3 scheme back around the surviving component. -/
def bucket_name (file_dir : List Char) : List Char :=
  "s3://".toList ++
    (split_loop (((file_dir.drop 5).dropLast).length + 1)
      (ospath_split ((file_dir.drop 5).dropLast))).1 ++ ['/']

/-! ## Errors, remote fetches and the file system -/

/-- Python exceptions that the embedded code can surface. -/
inductive PyError where
  | keyError (key : String)
  | urlError (msg : String)
  | jsonError (msg : String)
  | nameError (local_name : String)
deriving DecidableEq, Repr

/-- A JSON object as far as the source consumes one: an association list
from string keys to string values; runPublicationTime values are kept as
character lists. -/
def JsonDict := List (String × List Char)

instance : DecidableEq JsonDict := by
  unfold JsonDict; infer_instance

/-- Text files on disk: an association list from file names to contents. -/
def FS := List (String × String)

instance : DecidableEq FS := by
  unfold FS; infer_instance

/-- Opening a file in write mode and writing text: any existing entry is
truncated and replaced. -/
def setFile : FS → String → String → FS
  | [], n, c => [(n, c)]
  | (m, d) :: fs, n, c => if m = n then (n, c) :: fs else (m, d) :: setFile fs n c

/-- A write on an already open file handle: the text is appended to the
contents of the named file. -/
def appendFile : FS → String → String → FS
  | [], n, c => [(n, c)]
  | (m, d) :: fs, n, c => if m = n then (m, d ++ c) :: fs else (m, d) :: appendFile fs n c

/-! ## modeloutputs_metadata.py -/

namespace ModelOutputs

/-- The hardcoded file format lookup table at the top of
modeloutputs_metadata.py. -/
def file_formats : List (String × List String) :=
  [("ADELPHI", ["netcdf4", "txt"]),
   ("AMGeO", ["hdf5", "txt"]),
   ("CTIPe", ["netcdf3", "netcdf4", "txt"]),
   ("DTM", ["netcdf3", "txt"]),
   ("GAMERA_GM", ["hdf5", "txt"]),
   ("GITM", ["netcdf4", "txt"]),
   ("IRI", ["netcdf3", "txt"]),
   ("MARBLE", ["hdf5", "txt"]),
   ("OpenGGCM_GM", ["netcdf4", "txt"]),
   ("SuperDARN_uni", ["netcdf4", "txt"]),
   ("SuperDARN_equ", ["netcdf4", "txt"]),
   ("SWMF_IE", ["netcdf4", "txt"]),
   ("SWMF_GM", ["binary", "txt"]),
   ("TIEGCM", ["netcdf4", "txt"]),
   ("WACCMX", ["netcdf3", "txt"]),
   ("WAMIPE", ["netcdf3", "txt"]),
   ("Weimer", ["netcdf3", "txt"])]

/-- Embedding of retrieve_modeljson. The network is passed in as the
Except value fetched (the parsed JSON on success, the urllib or json
exception on failure); now is the clock reading used by datetime.utcnow.
With an empty resourceURL the fetch is never attempted and the default
dictionary carrying the current time is returned. -/
def retrieve_modeljson (resourceURL : String)
    (fetched : Except PyError JsonDict) (now : PyDateTime) :
    Except PyError JsonDict :=
  if resourceURL ≠ "" then fetched
  else Except.ok [("runPublicationTime", isoformatL now)]

/-- The catalog entry dictionary built by modelcatalog_entry, field for
field. -/
structure ModelCatalogEntry where
  id : String
  loc : List Char
  title : String
  startDate : List Char
  stopDate : List Char
  modificationDate : List Char
  indexFormat : String
  fileFormat : List String
  description : JsonDict
  resourceURL : String
  creationDate : List Char
  citation : String
  contact : String
  contactID : String
  aboutURL : String
deriving DecidableEq

/-- Embedding of modelcatalog_entry. The external collaborators are
explicit arguments: start_dt and stop_dt are the bounds MW.File_Times
returned, now is the clock, fetched is the network result. Failures
surface in the order Python meets them: a fetch error propagates out of
retrieve_modeljson, an unknown model name raises KeyError at the
file_formats lookup, and a missing runPublicationTime key raises KeyError
when the dictionary literal is evaluated. -/
def modelcatalog_entry (model_name run_name file_dir resourceURL aboutURL
    citation contact contactID : String)
    (start_dt stop_dt now : PyDateTime)
    (fetched : Except PyError JsonDict) :
    Except PyError ModelCatalogEntry :=
  match retrieve_modeljson resourceURL fetched now with
  | Except.error e => Except.error e
  | Except.ok model_json =>
    match List.lookup model_name file_formats with
    | none => Except.error (PyError.keyError model_name)
    | some fmts =>
      match List.lookup "runPublicationTime" model_json with
      | none => Except.error (PyError.keyError "runPublicationTime")
      | some pubTime =>
        Except.ok
          { id := model_name ++ "-" ++ run_name
            loc := bucket_name file_dir.toList ++ "ModelOutputs/".toList
            title := model_name ++ " model, " ++ run_name ++ " run."
            startDate := (isoformatL start_dt).take 19 ++ ['Z']
            stopDate := (isoformatL stop_dt).take 19 ++ ['Z']
            modificationDate := (isoformatL now).take 19 ++ ['Z']
            indexFormat := "csv"
            fileFormat := fmts
            description := model_json
            resourceURL := resourceURL
            creationDate := pubTime.take 19 ++ ['Z']
            citation := citation
            contact := contact
            contactID := contactID
            aboutURL := aboutURL }

/-- Name of the per-year registry csv file opened by initialize_csvfile
in modeloutputs_metadata.py. -/
def csvname (model_name run_name : String) (year : Nat) : String :=
  model_name ++ "-" ++ run_name ++ "_" ++ toString year ++ ".csv"

/-- The header text initialize_csvfile writes (the source writes it with
no trailing newline). -/
def csv_header : String := "# startDate, key, filesize, stopDate"

/-- One registry row of the model output registry: the data the loop body
of modelregistry derives for one file from the read_timelist result. -/
structure ModelRow where
  startDate : PyDateTime
  key : String
  filesize : Nat
  stopDate : PyDateTime

/-- The text the loop body writes for one row: a Python f-string wrapping
each field in single quotes, comma separated, with no newline. -/
def rowString (r : ModelRow) : String :=
  "\x27" ++ String.mk (pyStrL r.startDate) ++ "\x27,\x27" ++ r.key ++
    "\x27,\x27" ++ toString r.filesize ++ "\x27,\x27" ++
    String.mk (pyStrL r.stopDate) ++ "\x27"

/-- Embedding of initialize_csvfile: opening the csv named for the given
year in write mode truncates it and writes the header; the returned
string is the name of the now current file handle. -/
def initialize_csvfile (model_name run_name : String) (year : Nat) (fs : FS) :
    FS × String :=
  (setFile fs (csvname model_name run_name year) csv_header,
   csvname model_name run_name year)

/-- Embedding of the csv writing loop of modelregistry. The year local is
initialized from the start year returned by MW.File_Times and, exactly as
in the source, never reassigned inside the loop: the comparison and the
reinitialization both use that initial year. Returns the resulting file
system. -/
def modelregistry_csvs (model_name run_name : String) (start_year : Nat)
    (rows : List ModelRow) : FS :=
  (rows.foldl
    (fun (st : FS × String) r =>
      let st1 := if r.startDate.year ≠ start_year
        then initialize_csvfile model_name run_name start_year st.1
        else st
      (appendFile st1.1 st1.2 (rowString r), st1.2))
    (initialize_csvfile model_name run_name start_year [])).1

/-- The parameter records of the Registry Schema Descriptor json. -/
structure RegistryParam where
  name : String
  type : String
  description : String
deriving DecidableEq

/-- The Registry Schema Descriptor document. -/
structure InfoJson where
  cloudMe : String
  parameters : List RegistryParam
deriving DecidableEq

/-- The fixed info_json dictionary modelregistry serializes. -/
def model_info_json : InfoJson :=
  { cloudMe := "0.2"
    parameters := [{ name := "stopDate", type := "string",
                     description := "ISO date of end of file" }] }

/-- Descriptor files on disk, keyed by name. -/
def JFS := List (String × InfoJson)

instance : DecidableEq JFS := by
  unfold JFS; infer_instance

/-- Writing a descriptor document to disk. -/
def setJson : JFS → String → InfoJson → JFS
  | [], n, c => [(n, c)]
  | (m, d) :: fs, n, c => if m = n then (n, c) :: fs else (m, d) :: setJson fs n c

/-- The descriptor writing step at the top of modelregistry: the file is
opened in write mode and the fixed document dumped unconditionally, with
no existence check. The boolean records that a write was performed. -/
def modelregistry_info_step (model_name run_name : String) (fs : JFS) :
    JFS × Bool :=
  (setJson fs (model_name ++ "-" ++ run_name ++ "_info.json") model_info_json,
   true)

end ModelOutputs

/-! ## flythroughoutputs_metadata.py -/

namespace FlythroughOutputs

/-- Citation string constant from the top of the module. -/
def kamodo_ccmc_citation : String :=
  "Ringuette, R., D. De Zeeuw, L. Rastaetter, and A. Pembroke. 2022. " ++
  "Kamodo\x27s Model-Agnostic Satellite Flythrough: Lowering the " ++
  "Utilization Barrier for Heliophysics Model Outputs. Frontiers in " ++
  "Astronomy and Space Sciences, vol 9. " ++
  "http://dx.doi.org/10.3389/fspas.2022.1005977"

/-- Citation string constant from the top of the module. -/
def pyspedas_citation : String :=
  "pySPEDAS. 2022. pySPEDAS. GitHub. Accessed April 2023. " ++
  "https://github.com/spedas/pyspedas"

/-- Citation string constant from the top of the module, still empty in
the source. -/
def magnetopause_project_citation : String := ""

/-- The catalog entry dictionary built by flythroughcatalog_entry, field
for field. -/
structure FlythroughCatalogEntry where
  id : String
  catalogLoc : List Char
  title : String
  startDate : List Char
  stopDate : List Char
  modificationDate : List Char
  indexFormat : String
  fileFormat : String
  description : String
  creationDate : List Char
  citation : String
  contact : String
  contactID : String
deriving DecidableEq

/-- Embedding of flythroughcatalog_entry. start_dt and stop_dt are the
bounds MW.File_Times returned and now is the single datetime.utcnow()
reading the source stores in time_now and reuses for both
modificationDate (first 19 characters) and creationDate (first 10
characters). -/
def flythroughcatalog_entry (model_name run_name file_dir sat_name
    contact contactID : String) (start_dt stop_dt now : PyDateTime) :
    FlythroughCatalogEntry :=
  { id := model_name ++ "-" ++ run_name ++ "-Flythrough"
    catalogLoc := bucket_name file_dir.toList ++ "FlythroughResults/".toList
    title := "Flythrough results from the " ++ model_name ++ "-" ++ run_name ++ " run."
    startDate := (isoformatL start_dt).take 19 ++ ['Z']
    stopDate := (isoformatL stop_dt).take 19 ++ ['Z']
    modificationDate := (isoformatL now).take 19 ++ ['Z']
    indexFormat := "csv"
    fileFormat := "netcdf4"
    description := "Created using kamodo-ccmc from " ++ model_name ++ "-" ++
      run_name ++ " dataset using the " ++ sat_name ++
      " trajectory obtained with pySPEDAS"
    creationDate := (isoformatL now).take 10 ++ ['Z']
    citation := kamodo_ccmc_citation ++ ", " ++ pyspedas_citation ++ ", " ++
      magnetopause_project_citation
    contact := contact
    contactID := contactID }

/-- The fixed info_json dictionary flythroughregistry serializes when the
descriptor file does not already exist. -/
def flythrough_info_json : ModelOutputs.InfoJson :=
  { cloudMe := "0.2"
    parameters :=
      [{ name := "stopDate", type := "string",
         description := "ISO date of end of file" },
       { name := "model", type := "string", description := "Name of model." },
       { name := "runname", type := "string", description := "Name of run." },
       { name := "coordinate_system", type := "string",
         description := "Name of coordinate system." },
       { name := "coordinate1", type := "string",
         description := "X in R_E or longitude in degrees." },
       { name := "coordinate2", type := "string",
         description := "Y in R_E or latitude in degrees." },
       { name := "coordinate3", type := "string",
         description := "Z or Radius in R_E, or height in km." },
       { name := "variable_list", type := "string",
         description := "Comma-separated list of variable names in the flythrough output." }] }

/-- The descriptor writing step at the top of flythroughregistry: guarded
by an _isfile existence check, the document is only written when the file
is not already present. The boolean records whether a write was
performed. -/
def flythroughregistry_info_step (model_name run_name flythrough_dir : String)
    (fs : ModelOutputs.JFS) : ModelOutputs.JFS × Bool :=
  if (List.lookup (flythrough_dir ++ model_name ++ "-" ++ run_name ++
      "-Flythrough_info.json") fs).isSome
  then (fs, false)
  else (ModelOutputs.setJson fs
    (flythrough_dir ++ model_name ++ "-" ++ run_name ++ "-Flythrough_info.json")
    flythrough_info_json, true)

/-- The coordinate label assignment of the per-file loop in
flythroughregistry: the if/elif chain over the unit triple, with no else
branch, so an unmapped triple assigns nothing (None here). -/
def coord_labels (units : List String) : Option (String × String × String) :=
  if units = ["R_E", "R_E", "R_E"] then some ("X", "Y", "Z")
  else if units = ["deg", "deg", "R_E"] then some ("Longitude", "Latitude", "Radius")
  else if units = ["deg", "deg", "km"] then some ("Longitude", "Latitude", "Height")
  else none

/-- The slice of per-file data that decides the coordinate labels. -/
structure FlyFile where
  fname : String
  units : List String
deriving DecidableEq

/-- Projection of the flythroughregistry per-file loop onto the
coordinate label state. coord1, coord2 and coord3 are function scoped
Python locals: when the if/elif chain does not fire they keep the value
assigned for an earlier file, and if no earlier file assigned them the
row construction raises NameError for the unbound local coord1. -/
def flythrough_label_rows :
    Option (String × String × String) → List FlyFile →
      Except PyError (List (String × (String × String × String)))
  | _, [] => Except.ok []
  | prev, f :: fs =>
    match (match coord_labels f.units with
           | some lab => some lab
           | none => prev) with
    | none => Except.error (PyError.nameError "coord1")
    | some lab =>
      match flythrough_label_rows (some lab) fs with
      | Except.error e => Except.error e
      | Except.ok rest => Except.ok ((f.fname, lab) :: rest)

/-- Embedding of numpy.sign on an integer sequence. -/
def npsign (l : List Int) : List Int := l.map Int.sign

/-- Embedding of numpy.diff: differences of adjacent elements. -/
def npdiff (l : List Int) : List Int := List.zipWith (fun a b => b - a) l l.tail

/-- Embedding of numpy.where(...)[0] on a nonzero test: the indices, in
increasing order, at which the sequence is nonzero. -/
def npwhere_nonzero (l : List Int) : List Nat :=
  (List.range l.length).filter (fun i => l.getD i 0 != 0)

/-- Embedding of find_magnetopause_crossings. -/
def find_magnetopause_crossings (sc_to_mp : List Int) : List Nat :=
  npwhere_nonzero (npdiff (npsign sc_to_mp))

end FlythroughOutputs

/-- A character list is a valid ISO-8601 UTC timestamp truncated to
seconds and ending in Z exactly when it is the 19 character seconds part
of the isoformat of some valid datetime, followed by the letter Z. -/
def IsIsoSecondsZ (s : List Char) : Prop :=
  ∃ d : PyDateTime, d.valid ∧ s = isoSecondsL d ++ ['Z']


/-! ## Theorems -/

theorem Ordering.then_eq_right (x : Ordering) : x.then Ordering.eq = x := by
  cases x <;> rfl

theorem Ordering.then_assoc' (a b c : Ordering) :
    (a.then b).then c = a.then (b.then c) := by
  cases a <;> rfl

theorem Ordering.lt_then (x : Ordering) : Ordering.lt.then x = Ordering.lt := rfl

theorem Ordering.eq_then (x : Ordering) : Ordering.eq.then x = x := rfl

theorem Ordering.gt_then (x : Ordering) : Ordering.gt.then x = Ordering.gt := rfl

theorem cmpN_self (n : Nat) : cmpN n n = Ordering.eq := by
  simp [cmpN]

theorem cmpC_self (c : Char) : cmpC c c = Ordering.eq := by
  simp [cmpC, cmpN_self]

theorem cmpL_cons_same (c : Char) (s t : List Char) :
    cmpL (c :: s) (c :: t) = cmpL s t := by
  show (cmpC c c).then (cmpL s t) = cmpL s t
  rw [cmpC_self]
  rfl

theorem cmpL_append (A B C D : List Char) (h : A.length = C.length) :
    cmpL (A ++ B) (C ++ D) = (cmpL A C).then (cmpL B D) := by
  induction A generalizing C with
  | nil =>
    cases C with
    | nil => rfl
    | cons c cs => simp at h
  | cons a as ih =>
    cases C with
    | nil => simp at h
    | cons c cs =>
      show (cmpC a c).then (cmpL (as ++ B) (cs ++ D)) = _
      rw [ih cs (by simpa using h)]
      show _ = ((cmpC a c).then (cmpL as cs)).then (cmpL B D)
      rw [Ordering.then_assoc']

theorem cmpN_mul_add {K x y r s : Nat} (hr : r < K) (hs : s < K) :
    cmpN (x * K + r) (y * K + s) = (cmpN x y).then (cmpN r s) := by
  rcases Nat.lt_trichotomy x y with h | h | h
  · have h1 : x * K + r < y * K + s :=
      calc x * K + r < x * K + K := by omega
        _ = (x + 1) * K := by ring
        _ ≤ y * K := Nat.mul_le_mul_right K h
        _ ≤ y * K + s := Nat.le_add_right _ _
    simp [cmpN, h1, h, Nat.ne_of_lt h, Ordering.lt_then]
  · subst h
    rcases Nat.lt_trichotomy r s with h2 | h2 | h2
    · have h3 : x * K + r < x * K + s := by omega
      simp [cmpN, h2, h3, Nat.ne_of_lt h2, Nat.ne_of_lt h3, Ordering.eq_then]
    · subst h2
      simp [cmpN_self, Ordering.eq_then]
    · have h3 : ¬ (x * K + r < x * K + s) := by omega
      have h4 : ¬ (x * K + r = x * K + s) := by omega
      simp [cmpN, h3, h4, Nat.lt_asymm h2, (Nat.ne_of_lt h2).symm,
        Ordering.eq_then]
  · have h1 : y * K + s < x * K + r :=
      calc y * K + s < y * K + K := by omega
        _ = (y + 1) * K := by ring
        _ ≤ x * K := Nat.mul_le_mul_right K h
        _ ≤ x * K + r := Nat.le_add_right _ _
    have h2 : ¬ (x * K + r < y * K + s) := Nat.lt_asymm h1
    have h3 : ¬ (x * K + r = y * K + s) := (Nat.ne_of_lt h1).symm
    simp [cmpN, h2, h3, Nat.lt_asymm h, (Nat.ne_of_lt h).symm,
      Ordering.gt_then]

theorem length_pad2L (n : Nat) : (pad2L n).length = 2 := rfl

theorem length_pad4L (n : Nat) : (pad4L n).length = 4 := rfl

theorem length_isoSecondsL (d : PyDateTime) : (isoSecondsL d).length = 19 := by
  simp [isoSecondsL, pad4L, pad2L]

theorem take19_isoformatL (d : PyDateTime) :
    (isoformatL d).take 19 = isoSecondsL d := by
  unfold isoformatL
  exact List.take_left' (length_isoSecondsL d)

theorem cmpC_digitChar_fin : ∀ (a b : Fin 10),
    cmpC (Nat.digitChar a.val) (Nat.digitChar b.val) = cmpN a.val b.val := by
  decide

theorem cmpC_digitChar {a b : Nat} (ha : a < 10) (hb : b < 10) :
    cmpC (Nat.digitChar a) (Nat.digitChar b) = cmpN a b :=
  cmpC_digitChar_fin ⟨a, ha⟩ ⟨b, hb⟩

theorem cmpL_pad2 {a b : Nat} (ha : a < 100) (hb : b < 100) :
    cmpL (pad2L a) (pad2L b) = cmpN a b := by
  have h1 : a / 10 < 10 := by omega
  have h2 : b / 10 < 10 := by omega
  have h3 : a % 10 < 10 := by omega
  have h4 : b % 10 < 10 := by omega
  show (cmpC (Nat.digitChar (a / 10)) (Nat.digitChar (b / 10))).then
      ((cmpC (Nat.digitChar (a % 10)) (Nat.digitChar (b % 10))).then Ordering.eq) = _
  rw [cmpC_digitChar h1 h2, cmpC_digitChar h3 h4, Ordering.then_eq_right]
  rw [← cmpN_mul_add h3 h4]
  congr 1 <;> omega

theorem cmpL_pad2_append (a b : Nat) (r s : List Char) :
    cmpL (pad2L a ++ r) (pad2L b ++ s) = (cmpL (pad2L a) (pad2L b)).then (cmpL r s) :=
  cmpL_append (pad2L a) r (pad2L b) s rfl

theorem cmpL_pad4_append (a b : Nat) (r s : List Char) :
    cmpL (pad4L a ++ r) (pad4L b ++ s) = (cmpL (pad4L a) (pad4L b)).then (cmpL r s) :=
  cmpL_append (pad4L a) r (pad4L b) s rfl

theorem cmpL_pad4 {a b : Nat} (ha : a < 10000) (hb : b < 10000) :
    cmpL (pad4L a) (pad4L b) = cmpN a b := by
  unfold pad4L
  rw [cmpL_pad2_append]
  rw [cmpL_pad2 (by omega) (by omega), cmpL_pad2 (by omega) (by omega)]
  rw [← cmpN_mul_add (K := 100) (by omega) (by omega)]
  congr 1 <;> omega

theorem cmp_isoSeconds {d1 d2 : PyDateTime} (h1 : d1.valid) (h2 : d2.valid) :
    cmpL (isoSecondsL d1) (isoSecondsL d2) = cmpN (truncRank d1) (truncRank d2) := by
  obtain ⟨hy1, hy1b, hmo1, hmo1b, hd1, hd1b, hh1, hmi1, hs1, hus1⟩ := h1
  obtain ⟨hy2, hy2b, hmo2, hmo2b, hd2, hd2b, hh2, hmi2, hs2, hus2⟩ := h2
  unfold isoSecondsL
  rw [cmpL_pad4_append, cmpL_cons_same, cmpL_pad2_append, cmpL_cons_same,
    cmpL_pad2_append, cmpL_cons_same, cmpL_pad2_append, cmpL_cons_same,
    cmpL_pad2_append, cmpL_cons_same]
  rw [cmpL_pad4 (by omega) (by omega), cmpL_pad2 (by omega) (by omega),
    cmpL_pad2 (by omega) (by omega), cmpL_pad2 (by omega) (by omega),
    cmpL_pad2 (by omega) (by omega), cmpL_pad2 (by omega) (by omega)]
  unfold truncRank
  rw [cmpN_mul_add (by omega) (by omega), cmpN_mul_add (by omega) (by omega),
    cmpN_mul_add (by omega) (by omega), cmpN_mul_add (by omega) (by omega),
    cmpN_mul_add (by omega) (by omega)]
  simp [Ordering.then_assoc']

theorem strLe_isoZ {d1 d2 : PyDateTime} (h1 : d1.valid) (h2 : d2.valid)
    (hle : truncRank d1 ≤ truncRank d2) :
    strLe ((isoformatL d1).take 19 ++ ['Z']) ((isoformatL d2).take 19 ++ ['Z']) := by
  rw [take19_isoformatL, take19_isoformatL]
  unfold strLe
  rw [cmpL_append _ _ _ _ (by rw [length_isoSecondsL, length_isoSecondsL]),
    cmp_isoSeconds h1 h2]
  have hz : cmpL ['Z'] ['Z'] = Ordering.eq := by
    show (cmpC 'Z' 'Z').then Ordering.eq = Ordering.eq
    rw [cmpC_self]; rfl
  rw [hz, Ordering.then_eq_right]
  unfold cmpN
  rcases Nat.lt_or_ge (truncRank d1) (truncRank d2) with h | h
  · simp [h]
  · have : truncRank d1 = truncRank d2 := Nat.le_antisymm hle h
    simp [this]

theorem truncRank_mono {d1 d2 : PyDateTime} (h1 : d1.valid) (h2 : d2.valid)
    (hle : dtRank d1 ≤ dtRank d2) : truncRank d1 ≤ truncRank d2 := by
  obtain ⟨_, _, _, _, _, _, _, _, _, hus1⟩ := h1
  obtain ⟨_, _, _, _, _, _, _, _, _, hus2⟩ := h2
  unfold dtRank at hle
  omega

theorem dropWhile_ne_slash {v : List Char} (w : List Char) (h : '/' ∉ v) :
    (v ++ '/' :: w).dropWhile (fun a => a != '/') = '/' :: w := by
  induction v with
  | nil => simp [List.dropWhile]
  | cons x xs ih =>
    have hx : x ≠ '/' := fun e => h (e ▸ List.mem_cons_self x xs)
    have hxs : '/' ∉ xs := fun hm => h (List.mem_cons_of_mem _ hm)
    have hb : (x != '/') = true := bne_iff_ne.mpr hx
    simp [List.dropWhile, hb, ih hxs]

theorem dropWhile_ne_slash_all {v : List Char} (h : '/' ∉ v) :
    v.dropWhile (fun a => a != '/') = [] := by
  induction v with
  | nil => rfl
  | cons x xs ih =>
    have hx : x ≠ '/' := fun e => h (e ▸ List.mem_cons_self x xs)
    have hxs : '/' ∉ xs := fun hm => h (List.mem_cons_of_mem _ hm)
    have hb : (x != '/') = true := bne_iff_ne.mpr hx
    simp [List.dropWhile, hb, ih hxs]

theorem dropWhile_eq_slash_cons {x : Char} (l : List Char) (h : x ≠ '/') :
    (x :: l).dropWhile (fun a => a == '/') = x :: l := by
  have hb : (x == '/') = false := beq_eq_false_iff_ne.mpr h
  simp [List.dropWhile, hb]

/-- Computation of the split head on a path whose last component s is
slash-free and whose prefix u ends in a non-slash character. -/
theorem ospath_head_append {u s : List Char} {e : Char} {l : List Char}
    (hu : u = l ++ [e]) (he : e ≠ '/') (hs : '/' ∉ s) :
    ospath_head (u ++ '/' :: s) = u := by
  subst hu
  unfold ospath_head
  have hrev : ((l ++ [e]) ++ '/' :: s).reverse = s.reverse ++ '/' :: (e :: l.reverse) := by
    simp
  rw [hrev, dropWhile_ne_slash _ (by simpa using hs)]
  have hany : ((('/' : Char) :: e :: l.reverse).reverse).any (fun a => a != '/') = true := by
    refine List.any_eq_true.2 ⟨e, ?_, by simp [he]⟩
    simp
  rw [hany, if_pos rfl]
  rw [show (('/' : Char) :: e :: l.reverse).dropWhile (fun a => a == '/') =
      (e :: l.reverse).dropWhile (fun a => a == '/') by simp [List.dropWhile]]
  rw [dropWhile_eq_slash_cons _ he]
  simp

/-- On a slash-free input the split head is empty. -/
theorem ospath_head_nosep {u : List Char} (h : '/' ∉ u) : ospath_head u = [] := by
  unfold ospath_head
  rw [dropWhile_ne_slash_all (by simpa using h)]
  simp

theorem split_loop_stop {tmp : List Char × List Char} (n : Nat)
    (h1 : '/' ∉ tmp.1) (h2 : '\\' ∉ tmp.1) : split_loop (n + 1) tmp = tmp := by
  simp [split_loop, h1, h2]

theorem split_loop_step {tmp : List Char × List Char} (n : Nat)
    (h : '/' ∈ tmp.1 ∨ '\\' ∈ tmp.1) :
    split_loop (n + 1) tmp = split_loop n (ospath_split tmp.1) := by
  simp [split_loop, h]

theorem ospath_split_fst (p : List Char) : (ospath_split p).1 = ospath_head p := rfl

/-- Full computation of bucket_name on a two-subdirectory path. -/
theorem bucket_name_two_subdirs (b s1 s2 : List Char)
    (hb : b ≠ []) (hs1 : s1 ≠ []) (hb1 : '/' ∉ b) (hb2 : '\\' ∉ b)
    (hs11 : '/' ∉ s1) (hs21 : '/' ∉ s2) :
    bucket_name ("s3://".toList ++ b ++ ['/'] ++ s1 ++ ['/'] ++ s2 ++ ['/']) =
      "s3://".toList ++ b ++ ['/'] := by
  have hstr : ((("s3://".toList ++ b ++ ['/'] ++ s1 ++ ['/'] ++ s2 ++ ['/']).drop 5).dropLast)
      = b ++ ['/'] ++ s1 ++ ['/'] ++ s2 := by
    have h1 : "s3://".toList ++ b ++ ['/'] ++ s1 ++ ['/'] ++ s2 ++ ['/']
        = "s3://".toList ++ (b ++ ['/'] ++ s1 ++ ['/'] ++ s2 ++ ['/']) := by
      simp [List.append_assoc]
    rw [h1, List.drop_left' (by rfl)]
    exact List.dropLast_concat
  obtain ⟨l1, e1, rfl⟩ : ∃ l e, s1 = l ++ [e] := by
    rcases s1.eq_nil_or_concat with h | ⟨l, e, h⟩
    · exact absurd h hs1
    · exact ⟨l, e, by simpa [List.concat_eq_append] using h⟩
  obtain ⟨lb, eb, rfl⟩ : ∃ l e, b = l ++ [e] := by
    rcases b.eq_nil_or_concat with h | ⟨l, e, h⟩
    · exact absurd h hb
    · exact ⟨l, e, by simpa [List.concat_eq_append] using h⟩
  have he1 : e1 ≠ '/' := fun h => hs11 (h ▸ List.mem_append_right l1 (List.mem_singleton.mpr rfl))
  have heb : eb ≠ '/' := fun h => hb1 (h ▸ List.mem_append_right lb (List.mem_singleton.mpr rfl))
  have hh1 : ospath_head ((lb ++ [eb]) ++ ['/'] ++ (l1 ++ [e1]) ++ ['/'] ++ s2)
      = (lb ++ [eb]) ++ ['/'] ++ (l1 ++ [e1]) := by
    have hre : (lb ++ [eb]) ++ ['/'] ++ (l1 ++ [e1]) ++ ['/'] ++ s2
        = ((lb ++ [eb]) ++ ['/'] ++ (l1 ++ [e1])) ++ '/' :: s2 := by
      simp [List.append_assoc]
    rw [hre]
    exact ospath_head_append (l := (lb ++ [eb]) ++ ['/'] ++ l1)
      (by simp [List.append_assoc]) he1 hs21
  have hh2 : ospath_head ((lb ++ [eb]) ++ ['/'] ++ (l1 ++ [e1])) = lb ++ [eb] := by
    have hre : (lb ++ [eb]) ++ ['/'] ++ (l1 ++ [e1]) = (lb ++ [eb]) ++ '/' :: (l1 ++ [e1]) := by
      simp [List.append_assoc]
    rw [hre]
    exact ospath_head_append rfl heb hs11
  obtain ⟨m, hm⟩ : ∃ m, ((lb ++ [eb]) ++ ['/'] ++ (l1 ++ [e1]) ++ ['/'] ++ s2).length = m + 1 := by
    have hpos : 0 < ((lb ++ [eb]) ++ ['/'] ++ (l1 ++ [e1]) ++ ['/'] ++ s2).length := by
      simp
    exact ⟨((lb ++ [eb]) ++ ['/'] ++ (l1 ++ [e1]) ++ ['/'] ++ s2).length - 1, by omega⟩
  unfold bucket_name
  rw [hstr, hm, split_loop_step (m + 1) (by rw [ospath_split_fst, hh1]; exact Or.inl (by simp))]
  rw [ospath_split_fst, hh1]
  rw [split_loop_stop m (by rw [ospath_split_fst, hh2]; exact hb1)
    (by rw [ospath_split_fst, hh2]; exact hb2)]
  rw [ospath_split_fst, hh2]

/-- Full computation of bucket_name on a one-subdirectory path. -/
theorem bucket_name_one_subdir (b s1 : List Char)
    (hb : b ≠ []) (hb1 : '/' ∉ b) (hb2 : '\\' ∉ b) (hs11 : '/' ∉ s1) :
    bucket_name ("s3://".toList ++ b ++ ['/'] ++ s1 ++ ['/']) =
      "s3://".toList ++ b ++ ['/'] := by
  have hstr : ((("s3://".toList ++ b ++ ['/'] ++ s1 ++ ['/']).drop 5).dropLast)
      = b ++ ['/'] ++ s1 := by
    have h1 : "s3://".toList ++ b ++ ['/'] ++ s1 ++ ['/']
        = "s3://".toList ++ (b ++ ['/'] ++ s1 ++ ['/']) := by
      simp [List.append_assoc]
    rw [h1, List.drop_left' (by rfl)]
    exact List.dropLast_concat
  obtain ⟨lb, eb, rfl⟩ : ∃ l e, b = l ++ [e] := by
    rcases b.eq_nil_or_concat with h | ⟨l, e, h⟩
    · exact absurd h hb
    · exact ⟨l, e, by simpa [List.concat_eq_append] using h⟩
  have heb : eb ≠ '/' := fun h => hb1 (h ▸ List.mem_append_right lb (List.mem_singleton.mpr rfl))
  have hh2 : ospath_head ((lb ++ [eb]) ++ ['/'] ++ s1) = lb ++ [eb] := by
    have hre : (lb ++ [eb]) ++ ['/'] ++ s1 = (lb ++ [eb]) ++ '/' :: s1 := by
      simp [List.append_assoc]
    rw [hre]
    exact ospath_head_append rfl heb hs11
  obtain ⟨m, hm⟩ : ∃ m, ((lb ++ [eb]) ++ ['/'] ++ s1).length = m + 1 := by
    have hpos : 0 < ((lb ++ [eb]) ++ ['/'] ++ s1).length := by
      simp
    exact ⟨((lb ++ [eb]) ++ ['/'] ++ s1).length - 1, by omega⟩
  unfold bucket_name
  rw [hstr, hm]
  rw [split_loop_stop (m + 1) (by rw [ospath_split_fst, hh2]; exact hb1)
    (by rw [ospath_split_fst, hh2]; exact hb2)]
  rw [ospath_split_fst, hh2]

/-- C10: for an input path containing only a scheme and a bucket with a
trailing slash and no subdirectory components, bucket_name returns
s3:///, dropping the bucket name entirely rather than returning the
bucket prefix or raising an error: after stripping the scheme and the
trailing slash the remaining text has no separator, so the single
os.path.split call before the loop puts it in the tail slot and leaves
the head empty, and the empty head is what is glued into the result. -/
theorem c10_bucket_name_no_subdir (b : List Char) (hb1 : '/' ∉ b) :
    bucket_name ("s3://".toList ++ b ++ ['/']) = "s3:///".toList := by
  have hstr : ((("s3://".toList ++ b ++ ['/']).drop 5).dropLast) = b := by
    have h1 : "s3://".toList ++ b ++ ['/'] = "s3://".toList ++ (b ++ ['/']) := by
      simp [List.append_assoc]
    rw [h1, List.drop_left' (by rfl)]
    exact List.dropLast_concat
  unfold bucket_name
  rw [hstr]
  rw [split_loop_stop b.length (by rw [ospath_split_fst, ospath_head_nosep hb1]; exact List.not_mem_nil _)
    (by rw [ospath_split_fst, ospath_head_nosep hb1]; exact List.not_mem_nil _)]
  rw [ospath_split_fst, ospath_head_nosep hb1]
  rfl

/-- On the default (empty) resourceURL the model catalog entry builder
never consults the network, finds runPublicationTime in the default
dictionary, and succeeds with this record whenever the model name is in
the format table. -/
theorem modelcatalog_entry_default (mn rn fd aurl cit con cid : String)
    (start stop now : PyDateTime) (fetched : Except PyError JsonDict)
    {fmts : List String}
    (hf : List.lookup mn ModelOutputs.file_formats = some fmts) :
    ModelOutputs.modelcatalog_entry mn rn fd "" aurl cit con cid start stop now fetched
      = Except.ok
        { id := mn ++ "-" ++ rn
          loc := bucket_name fd.toList ++ "ModelOutputs/".toList
          title := mn ++ " model, " ++ rn ++ " run."
          startDate := (isoformatL start).take 19 ++ ['Z']
          stopDate := (isoformatL stop).take 19 ++ ['Z']
          modificationDate := (isoformatL now).take 19 ++ ['Z']
          indexFormat := "csv"
          fileFormat := fmts
          description := [("runPublicationTime", isoformatL now)]
          resourceURL := ""
          creationDate := (isoformatL now).take 19 ++ ['Z']
          citation := cit
          contact := con
          contactID := cid
          aboutURL := aurl } := by
  unfold ModelOutputs.modelcatalog_entry ModelOutputs.retrieve_modeljson
  rw [hf]
  simp [List.lookup]

/-- C1: refuted on the code (code bug). The year local in modelregistry
is initialized from the dataset start year and never reassigned inside
the loop, so the first row starting in a different year triggers a
reinitialization that reopens the file named with the initial year in
write mode and truncates it. On a 2020 row followed by a 2021 row the
embedded loop leaves exactly one file, named for 2020, holding the
header and only the 2021 row: the 2021 row sits in a file whose name
carries the wrong year, and the 2020 row appears in no file at all,
contradicting the claim that every row lands in exactly one per-year
file named with its own start year. -/
theorem c1_modelregistry_year_bucketing_bug :
    ModelOutputs.modelregistry_csvs "M" "R" 2020
      [{ startDate := ⟨2020, 1, 1, 0, 0, 0, 0⟩, key := "f1.nc", filesize := 10,
         stopDate := ⟨2020, 1, 1, 2, 0, 0, 0⟩ },
       { startDate := ⟨2021, 1, 1, 0, 0, 0, 0⟩, key := "f2.nc", filesize := 20,
         stopDate := ⟨2021, 1, 1, 2, 0, 0, 0⟩ }] =
      [("M-R_2020.csv",
        "# startDate, key, filesize, stopDate\x272021-01-01 00:00:00\x27,\x27f2.nc\x27,\x2720\x27,\x272021-01-01 02:00:00\x27")] := by
  rfl

/-- C2: for paths of the documented shape s3://bucket/sub1/sub2/ (and
likewise with a single subdirectory), with nonempty separator-free
components, bucket_name returns exactly the scheme and bucket with a
trailing slash. -/
theorem c2_bucket_name_valid_input (b s1 s2 : List Char)
    (hb : b ≠ []) (hs1 : s1 ≠ []) (hb1 : '/' ∉ b) (hb2 : '\\' ∉ b)
    (hs11 : '/' ∉ s1) (hs21 : '/' ∉ s2) :
    bucket_name ("s3://".toList ++ b ++ ['/'] ++ s1 ++ ['/'] ++ s2 ++ ['/'])
      = "s3://".toList ++ b ++ ['/']
    ∧ bucket_name ("s3://".toList ++ b ++ ['/'] ++ s1 ++ ['/'])
      = "s3://".toList ++ b ++ ['/'] :=
  ⟨bucket_name_two_subdirs b s1 s2 hb hs1 hb1 hb2 hs11 hs21,
   bucket_name_one_subdir b s1 hb hb1 hb2 hs11⟩

/-- Witness for C2 at the example from the specification. -/
theorem c2_bucket_name_witness :
    bucket_name "s3://mybucket/ModelOutputs/run1/".toList = "s3://mybucket/".toList
    ∧ bucket_name "s3://mybucket/ModelOutputs/".toList = "s3://mybucket/".toList := by
  have h := c2_bucket_name_valid_input "mybucket".toList "ModelOutputs".toList
    "run1".toList (by decide) (by decide) (by decide) (by decide) (by decide) (by decide)
  constructor
  · rw [show "s3://mybucket/ModelOutputs/run1/".toList =
        "s3://".toList ++ "mybucket".toList ++ ['/'] ++ "ModelOutputs".toList ++
          ['/'] ++ "run1".toList ++ ['/'] from rfl,
      show "s3://mybucket/".toList = "s3://".toList ++ "mybucket".toList ++ ['/'] from rfl]
    exact h.1
  · rw [show "s3://mybucket/ModelOutputs/".toList =
        "s3://".toList ++ "mybucket".toList ++ ['/'] ++ "ModelOutputs".toList ++ ['/'] from rfl,
      show "s3://mybucket/".toList = "s3://".toList ++ "mybucket".toList ++ ['/'] from rfl]
    exact h.2

/-- C3: refuted on the code (code bug). The three handled unit triples do
map to the claimed labels, but the if/elif chain has no else branch, so
a row with any other unit triple raises no UnhandledCoordinateUnits
error: when an earlier file already assigned the label locals the
unmapped file silently inherits that earlier file's labels, and when the
very first file is unmapped the row construction raises NameError for
the unbound local instead. -/
theorem c3_coord_labels_fallthrough :
    FlythroughOutputs.coord_labels ["R_E", "R_E", "R_E"] = some ("X", "Y", "Z")
    ∧ FlythroughOutputs.coord_labels ["deg", "deg", "R_E"]
        = some ("Longitude", "Latitude", "Radius")
    ∧ FlythroughOutputs.coord_labels ["deg", "deg", "km"]
        = some ("Longitude", "Latitude", "Height")
    ∧ FlythroughOutputs.flythrough_label_rows none
        [{ fname := "a.nc", units := ["R_E", "R_E", "R_E"] },
         { fname := "b.nc", units := ["m", "m", "m"] }]
        = Except.ok [("a.nc", ("X", "Y", "Z")), ("b.nc", ("X", "Y", "Z"))]
    ∧ FlythroughOutputs.flythrough_label_rows none
        [{ fname := "b.nc", units := ["m", "m", "m"] }]
        = Except.error (PyError.nameError "coord1") :=
  ⟨rfl, rfl, rfl, rfl, rfl⟩

/-- C4 counterexample: modelregistry performs its descriptor write even
when the descriptor file already exists, replacing whatever content was
there, so re-running the build does not skip the write as claimed. -/
theorem c4_model_descriptor_not_skipped :
    ModelOutputs.modelregistry_info_step "M" "R"
        [("M-R_info.json", { cloudMe := "0.1", parameters := [] })]
      = ([("M-R_info.json", ModelOutputs.model_info_json)], true) := by
  rfl

/-- C4 amended: only flythroughregistry guards the descriptor write with
an existence check, skipping it (no write, no change, no error) when the
file is present; modelregistry writes its descriptor unconditionally on
every run, overwriting whatever is present with the fixed document. -/
theorem c4_descriptor_write_amended (model_name run_name flythrough_dir : String)
    (fs : ModelOutputs.JFS)
    (h : (List.lookup (flythrough_dir ++ model_name ++ "-" ++ run_name ++
        "-Flythrough_info.json") fs).isSome = true) :
    FlythroughOutputs.flythroughregistry_info_step model_name run_name flythrough_dir fs
      = (fs, false)
    ∧ ModelOutputs.modelregistry_info_step model_name run_name fs =
        (ModelOutputs.setJson fs (model_name ++ "-" ++ run_name ++ "_info.json")
          ModelOutputs.model_info_json, true) := by
  constructor
  · simp [FlythroughOutputs.flythroughregistry_info_step, h]
  · rfl

/-- Witness for the amended C4 on a state where the flythrough
descriptor already exists. -/
theorem c4_descriptor_write_witness :
    FlythroughOutputs.flythroughregistry_info_step "M" "R" "s3://b/FT/"
        [("s3://b/FT/M-R-Flythrough_info.json", FlythroughOutputs.flythrough_info_json)]
      = ([("s3://b/FT/M-R-Flythrough_info.json", FlythroughOutputs.flythrough_info_json)], false)
    ∧ ModelOutputs.modelregistry_info_step "M" "R"
        [("s3://b/FT/M-R-Flythrough_info.json", FlythroughOutputs.flythrough_info_json)]
      = (ModelOutputs.setJson
          [("s3://b/FT/M-R-Flythrough_info.json", FlythroughOutputs.flythrough_info_json)]
          ("M" ++ "-" ++ "R" ++ "_info.json") ModelOutputs.model_info_json, true) :=
  c4_descriptor_write_amended "M" "R" "s3://b/FT/"
    [("s3://b/FT/M-R-Flythrough_info.json", FlythroughOutputs.flythrough_info_json)]
    (by decide)

/-- C5 counterexample: the creationDate field of a flythrough catalog
entry is the first ten characters of the current time plus Z, a date
with no time component, which is not an ISO-8601 timestamp truncated to
seconds; its length is 11 where every seconds-truncated Z string has
length 20. -/
theorem c5_flythrough_creationDate_not_iso :
    ¬ IsIsoSecondsZ ((FlythroughOutputs.flythroughcatalog_entry "GITM" "run1"
      "s3://b/FlythroughResults/" "MMS1" "c" "cid"
      ⟨2023, 4, 27, 10, 0, 0, 0⟩ ⟨2023, 4, 28, 10, 0, 0, 0⟩
      ⟨2023, 4, 27, 17, 6, 4, 123456⟩).creationDate) := by
  rintro ⟨d, hv, he⟩
  have hlen : ((FlythroughOutputs.flythroughcatalog_entry "GITM" "run1"
      "s3://b/FlythroughResults/" "MMS1" "c" "cid"
      ⟨2023, 4, 27, 10, 0, 0, 0⟩ ⟨2023, 4, 28, 10, 0, 0, 0⟩
      ⟨2023, 4, 27, 17, 6, 4, 123456⟩).creationDate).length = 11 := by decide
  rw [he] at hlen
  simp [length_isoSecondsL] at hlen

/-- C5 amended: given valid datetimes from the collaborators, the
startDate, stopDate and modificationDate fields of both entry builders
are valid seconds-truncated ISO-8601 UTC strings ending in Z, and so is
the creationDate of a model entry built on the default resourceURL path;
but the creationDate of a flythrough entry is the ten character current
date followed by Z, not a seconds-truncated timestamp. -/
theorem c5_timestamps_amended (mn rn fd sat aurl cit con cid : String)
    (start stop now : PyDateTime) (err : PyError)
    (hs : start.valid) (hp : stop.valid) (hn : now.valid)
    (hf : (List.lookup mn ModelOutputs.file_formats).isSome = true) :
    (IsIsoSecondsZ (FlythroughOutputs.flythroughcatalog_entry mn rn fd sat con cid
        start stop now).startDate
     ∧ IsIsoSecondsZ (FlythroughOutputs.flythroughcatalog_entry mn rn fd sat con cid
        start stop now).stopDate
     ∧ IsIsoSecondsZ (FlythroughOutputs.flythroughcatalog_entry mn rn fd sat con cid
        start stop now).modificationDate
     ∧ (FlythroughOutputs.flythroughcatalog_entry mn rn fd sat con cid
        start stop now).creationDate = (isoformatL now).take 10 ++ ['Z'])
    ∧ ∃ e, ModelOutputs.modelcatalog_entry mn rn fd "" aurl cit con cid start stop now
          (Except.error err) = Except.ok e
        ∧ IsIsoSecondsZ e.startDate ∧ IsIsoSecondsZ e.stopDate
        ∧ IsIsoSecondsZ e.modificationDate ∧ IsIsoSecondsZ e.creationDate := by
  obtain ⟨fmts, hf2⟩ := Option.isSome_iff_exists.mp hf
  refine ⟨⟨⟨start, hs, by simp [FlythroughOutputs.flythroughcatalog_entry, take19_isoformatL]⟩,
           ⟨stop, hp, by simp [FlythroughOutputs.flythroughcatalog_entry, take19_isoformatL]⟩,
           ⟨now, hn, by simp [FlythroughOutputs.flythroughcatalog_entry, take19_isoformatL]⟩, rfl⟩,
          _, modelcatalog_entry_default mn rn fd aurl cit con cid start stop now _ hf2,
          ⟨start, hs, by simp [take19_isoformatL]⟩,
          ⟨stop, hp, by simp [take19_isoformatL]⟩,
          ⟨now, hn, by simp [take19_isoformatL]⟩,
          ⟨now, hn, by simp [take19_isoformatL]⟩⟩

/-- Witness for the amended C5 at concrete valid datetimes and a model
name present in the format table. -/
theorem c5_timestamps_witness :
    (IsIsoSecondsZ (FlythroughOutputs.flythroughcatalog_entry "GITM" "R1" "s3://b/x/"
        "MMS1" "c" "id" ⟨2020, 1, 2, 3, 4, 5, 6⟩ ⟨2021, 2, 3, 4, 5, 6, 7⟩
        ⟨2022, 1, 1, 0, 0, 0, 0⟩).startDate
     ∧ IsIsoSecondsZ (FlythroughOutputs.flythroughcatalog_entry "GITM" "R1" "s3://b/x/"
        "MMS1" "c" "id" ⟨2020, 1, 2, 3, 4, 5, 6⟩ ⟨2021, 2, 3, 4, 5, 6, 7⟩
        ⟨2022, 1, 1, 0, 0, 0, 0⟩).stopDate
     ∧ IsIsoSecondsZ (FlythroughOutputs.flythroughcatalog_entry "GITM" "R1" "s3://b/x/"
        "MMS1" "c" "id" ⟨2020, 1, 2, 3, 4, 5, 6⟩ ⟨2021, 2, 3, 4, 5, 6, 7⟩
        ⟨2022, 1, 1, 0, 0, 0, 0⟩).modificationDate
     ∧ (FlythroughOutputs.flythroughcatalog_entry "GITM" "R1" "s3://b/x/"
        "MMS1" "c" "id" ⟨2020, 1, 2, 3, 4, 5, 6⟩ ⟨2021, 2, 3, 4, 5, 6, 7⟩
        ⟨2022, 1, 1, 0, 0, 0, 0⟩).creationDate
        = (isoformatL ⟨2022, 1, 1, 0, 0, 0, 0⟩).take 10 ++ ['Z'])
    ∧ ∃ e, ModelOutputs.modelcatalog_entry "GITM" "R1" "s3://b/x/" "" "a" "cit" "c" "id"
          ⟨2020, 1, 2, 3, 4, 5, 6⟩ ⟨2021, 2, 3, 4, 5, 6, 7⟩ ⟨2022, 1, 1, 0, 0, 0, 0⟩
          (Except.error (PyError.urlError "t")) = Except.ok e
        ∧ IsIsoSecondsZ e.startDate ∧ IsIsoSecondsZ e.stopDate
        ∧ IsIsoSecondsZ e.modificationDate ∧ IsIsoSecondsZ e.creationDate :=
  c5_timestamps_amended "GITM" "R1" "s3://b/x/" "MMS1" "a" "cit" "c" "id"
    ⟨2020, 1, 2, 3, 4, 5, 6⟩ ⟨2021, 2, 3, 4, 5, 6, 7⟩ ⟨2022, 1, 1, 0, 0, 0, 0⟩
    (PyError.urlError "t") (by decide) (by decide) (by decide) (by decide)

/-- C6: when the external time bounds collaborator returns start not
after stop, every catalog entry built by either builder has its
startDate string less than or equal to its stopDate string in the
lexicographic string order, and the instants the two strings denote
(their seconds-resolution ranks) are likewise ordered. -/
theorem c6_startDate_le_stopDate (mn rn fd sat aurl cit con cid : String)
    (start stop now : PyDateTime) (err : PyError)
    (hs : start.valid) (hp : stop.valid)
    (hle : dtRank start ≤ dtRank stop)
    (hf : (List.lookup mn ModelOutputs.file_formats).isSome = true) :
    strLe (FlythroughOutputs.flythroughcatalog_entry mn rn fd sat con cid
        start stop now).startDate
      (FlythroughOutputs.flythroughcatalog_entry mn rn fd sat con cid
        start stop now).stopDate
    ∧ truncRank start ≤ truncRank stop
    ∧ ∃ e, ModelOutputs.modelcatalog_entry mn rn fd "" aurl cit con cid start stop now
          (Except.error err) = Except.ok e
        ∧ strLe e.startDate e.stopDate := by
  have ht := truncRank_mono hs hp hle
  obtain ⟨fmts, hf2⟩ := Option.isSome_iff_exists.mp hf
  exact ⟨strLe_isoZ hs hp ht, ht,
    _, modelcatalog_entry_default mn rn fd aurl cit con cid start stop now _ hf2,
    strLe_isoZ hs hp ht⟩

/-- Witness for C6 at concrete ordered valid datetimes. -/
theorem c6_startDate_le_stopDate_witness :
    strLe (FlythroughOutputs.flythroughcatalog_entry "GITM" "R1" "s3://b/x/" "MMS1"
        "c" "id" ⟨2020, 1, 2, 3, 4, 5, 6⟩ ⟨2021, 2, 3, 4, 5, 6, 7⟩
        ⟨2022, 1, 1, 0, 0, 0, 0⟩).startDate
      (FlythroughOutputs.flythroughcatalog_entry "GITM" "R1" "s3://b/x/" "MMS1"
        "c" "id" ⟨2020, 1, 2, 3, 4, 5, 6⟩ ⟨2021, 2, 3, 4, 5, 6, 7⟩
        ⟨2022, 1, 1, 0, 0, 0, 0⟩).stopDate
    ∧ truncRank ⟨2020, 1, 2, 3, 4, 5, 6⟩ ≤ truncRank ⟨2021, 2, 3, 4, 5, 6, 7⟩
    ∧ ∃ e, ModelOutputs.modelcatalog_entry "GITM" "R1" "s3://b/x/" "" "a" "cit" "c" "id"
          ⟨2020, 1, 2, 3, 4, 5, 6⟩ ⟨2021, 2, 3, 4, 5, 6, 7⟩ ⟨2022, 1, 1, 0, 0, 0, 0⟩
          (Except.error (PyError.urlError "t")) = Except.ok e
        ∧ strLe e.startDate e.stopDate :=
  c6_startDate_le_stopDate "GITM" "R1" "s3://b/x/" "MMS1" "a" "cit" "c" "id"
    ⟨2020, 1, 2, 3, 4, 5, 6⟩ ⟨2021, 2, 3, 4, 5, 6, 7⟩ ⟨2022, 1, 1, 0, 0, 0, 0⟩
    (PyError.urlError "t") (by decide) (by decide) (by decide) (by decide)

/-- C7: with no resource URL the publication time defaults to the
current UTC time (the creationDate of the returned entry carries the
clock reading), and with a resource URL a failed fetch propagates its
error to the caller while a fetched document lacking the
runPublicationTime key surfaces a KeyError, in neither case silently
defaulting. -/
theorem c7_publication_time (mn rn fd url aurl cit con cid : String)
    (start stop now : PyDateTime) (dict : JsonDict) (err : PyError)
    (hf : (List.lookup mn ModelOutputs.file_formats).isSome = true)
    (hurl : url ≠ "")
    (hmiss : List.lookup "runPublicationTime" dict = none) :
    (∃ e, ModelOutputs.modelcatalog_entry mn rn fd "" aurl cit con cid start stop now
        (Except.error err) = Except.ok e
        ∧ e.creationDate = (isoformatL now).take 19 ++ ['Z'])
    ∧ ModelOutputs.modelcatalog_entry mn rn fd url aurl cit con cid start stop now
        (Except.error err) = Except.error err
    ∧ ModelOutputs.modelcatalog_entry mn rn fd url aurl cit con cid start stop now
        (Except.ok dict) = Except.error (PyError.keyError "runPublicationTime") := by
  obtain ⟨fmts, hf2⟩ := Option.isSome_iff_exists.mp hf
  refine ⟨⟨_, modelcatalog_entry_default mn rn fd aurl cit con cid start stop now _ hf2,
    rfl⟩, ?_, ?_⟩
  · unfold ModelOutputs.modelcatalog_entry ModelOutputs.retrieve_modeljson
    simp [hurl]
  · unfold ModelOutputs.modelcatalog_entry ModelOutputs.retrieve_modeljson
    rw [hf2]
    simp [hurl, hmiss]

/-- Witness for C7 at a concrete nonempty URL and a fetched dictionary
without the runPublicationTime key. -/
theorem c7_publication_time_witness :
    (∃ e, ModelOutputs.modelcatalog_entry "GITM" "R1" "s3://b/x/" "" "a" "cit" "c" "id"
        ⟨2020, 1, 2, 3, 4, 5, 6⟩ ⟨2021, 2, 3, 4, 5, 6, 7⟩ ⟨2022, 1, 1, 0, 0, 0, 0⟩
        (Except.error (PyError.urlError "timeout")) = Except.ok e
        ∧ e.creationDate = (isoformatL ⟨2022, 1, 1, 0, 0, 0, 0⟩).take 19 ++ ['Z'])
    ∧ ModelOutputs.modelcatalog_entry "GITM" "R1" "s3://b/x/" "http://x" "a" "cit" "c" "id"
        ⟨2020, 1, 2, 3, 4, 5, 6⟩ ⟨2021, 2, 3, 4, 5, 6, 7⟩ ⟨2022, 1, 1, 0, 0, 0, 0⟩
        (Except.error (PyError.urlError "timeout")) = Except.error (PyError.urlError "timeout")
    ∧ ModelOutputs.modelcatalog_entry "GITM" "R1" "s3://b/x/" "http://x" "a" "cit" "c" "id"
        ⟨2020, 1, 2, 3, 4, 5, 6⟩ ⟨2021, 2, 3, 4, 5, 6, 7⟩ ⟨2022, 1, 1, 0, 0, 0, 0⟩
        (Except.ok [("other", ['1'])]) = Except.error (PyError.keyError "runPublicationTime") :=
  c7_publication_time "GITM" "R1" "s3://b/x/" "http://x" "a" "cit" "c" "id"
    ⟨2020, 1, 2, 3, 4, 5, 6⟩ ⟨2021, 2, 3, 4, 5, 6, 7⟩ ⟨2022, 1, 1, 0, 0, 0, 0⟩
    [("other", ['1'])] (PyError.urlError "timeout") (by decide) (by decide) (by decide)

/-- C8: refuted on the code (code bug). Neither the header write in
initialize_csvfile nor the per row write in the loop emits any newline
character, so a registry csv is one single line consisting of the
header text immediately followed by the concatenated row texts; the
claimed structure of a header line followed by one line per row never
appears. Evaluating the embedded writer on two same-year rows shows the
single file whose whole content is newline-free. -/
theorem c8_csv_not_line_structured :
    ModelOutputs.modelregistry_csvs "M" "R" 2020
      [{ startDate := ⟨2020, 1, 1, 0, 0, 0, 0⟩, key := "f1.nc", filesize := 10,
         stopDate := ⟨2020, 1, 1, 2, 0, 0, 0⟩ },
       { startDate := ⟨2020, 6, 1, 0, 0, 0, 0⟩, key := "f2.nc", filesize := 20,
         stopDate := ⟨2020, 6, 1, 2, 0, 0, 0⟩ }] =
      [("M-R_2020.csv",
        "# startDate, key, filesize, stopDate\x272020-01-01 00:00:00\x27,\x27f1.nc\x27,\x2710\x27,\x272020-01-01 02:00:00\x27\x272020-06-01 00:00:00\x27,\x27f2.nc\x27,\x2720\x27,\x272020-06-01 02:00:00\x27")]
    ∧ '\n' ∉ ("# startDate, key, filesize, stopDate\x272020-01-01 00:00:00\x27,\x27f1.nc\x27,\x2710\x27,\x272020-01-01 02:00:00\x27\x272020-06-01 00:00:00\x27,\x27f2.nc\x27,\x2720\x27,\x272020-06-01 02:00:00\x27" : String).toList :=
  ⟨rfl, by decide⟩

theorem length_npsign (l : List Int) :
    (FlythroughOutputs.npsign l).length = l.length := by
  simp [FlythroughOutputs.npsign]

theorem length_npdiff (l : List Int) :
    (FlythroughOutputs.npdiff l).length = l.length - 1 := by
  simp [FlythroughOutputs.npdiff]

theorem npdiff_npsign_getD (xs : List Int) :
    ∀ i, i + 1 < xs.length →
      (FlythroughOutputs.npdiff (FlythroughOutputs.npsign xs)).getD i 0 =
        Int.sign (xs.getD (i + 1) 0) - Int.sign (xs.getD i 0) := by
  induction xs with
  | nil => intro i h; simp at h
  | cons a tl ih =>
    cases tl with
    | nil =>
      intro i h
      simp at h
    | cons b tl2 =>
      intro i h
      cases i with
      | zero => rfl
      | succ j =>
        have hj : j + 1 < (b :: tl2).length := by
          simp at h ⊢
          omega
        have hrec := ih j hj
        rw [show FlythroughOutputs.npdiff (FlythroughOutputs.npsign (a :: b :: tl2)) =
            (Int.sign b - Int.sign a) ::
              FlythroughOutputs.npdiff (FlythroughOutputs.npsign (b :: tl2)) from rfl]
        rw [List.getD_cons_succ, hrec]
        simp [List.getD_cons_succ]

/-- C9: find_magnetopause_crossings returns exactly the indices
immediately preceding every sign change between adjacent elements of
the signed-difference sequence, in increasing order, and in particular
returns the indices 1 and 3 on the sequence 1, 1, -1, -1, 2. -/
theorem c9_find_magnetopause_crossings :
    (∀ xs : List Int, FlythroughOutputs.find_magnetopause_crossings xs =
      (List.range (xs.length - 1)).filter
        (fun i => Int.sign (xs.getD i 0) != Int.sign (xs.getD (i + 1) 0)))
    ∧ FlythroughOutputs.find_magnetopause_crossings [1, 1, -1, -1, 2] = [1, 3] := by
  constructor
  · intro xs
    unfold FlythroughOutputs.find_magnetopause_crossings FlythroughOutputs.npwhere_nonzero
    rw [length_npdiff, length_npsign]
    refine List.filter_congr ?_
    intro i hi
    have hi2 : i + 1 < xs.length := by
      have := List.mem_range.mp hi
      omega
    rw [npdiff_npsign_getD xs i hi2]
    rcases eq_or_ne (Int.sign (xs.getD i 0)) (Int.sign (xs.getD (i + 1) 0)) with h | h
    · rw [h]
      simp
    · have h1 : (Int.sign (xs.getD (i + 1) 0) - Int.sign (xs.getD i 0) != 0) = true :=
        bne_iff_ne.mpr (sub_ne_zero.mpr (Ne.symm h))
      have h2 : (Int.sign (xs.getD i 0) != Int.sign (xs.getD (i + 1) 0)) = true :=
        bne_iff_ne.mpr h
      rw [h1, h2]
  · decide

/-- Witness for C10 at the concrete bucket-only path from the claim. -/
theorem c10_bucket_name_no_subdir_witness :
    bucket_name "s3://mybucket/".toList = "s3:///".toList := by
  have h := c10_bucket_name_no_subdir "mybucket".toList (by decide)
  rw [show "s3://".toList ++ "mybucket".toList ++ ['/'] = "s3://mybucket/".toList
    from rfl] at h
  exact h
